import Mathlib

/-!
Shallow embedding of the GameTest record/replay framework (C sources under
src/src), for checking the specification claims C1..C10.

Modelling conventions:
* C `double` time values are modelled as exact rationals (`ℚ`); the algorithms
  under study use only comparison, addition and subtraction of timestamps.
* `GMT_InputState` is a fixed-size byte struct in C (captured snapshots are
  compared with `memcmp` and zeroed with `memset`); it is modelled as a list of
  bytes, with the session carrying the struct size `input_size` so that the
  zeroed snapshot is `List.replicate input_size 0`.
* The single global `g_gmt` (Internal.h) becomes an explicit `GMT_State` value
  threaded through every entry point; platform calls (`GMT_Platform_GetTime`,
  `GMT_Platform_CaptureInput`) become arguments, and the external injection
  capability (`GMT_Platform_InjectInput`) becomes the list of `(new, prev)`
  pairs an invocation hands to it, in call order.
* Logging and user callbacks do not mutate session state and are not modelled.
-/

namespace GameTest

/-- One input snapshot: the raw bytes of the C `GMT_InputState` struct. -/
abbrev GMT_InputState := List Nat

/-- InputState.c: `GMT_InputState_Compare` is `memcmp == 0`, i.e. byte equality. -/
def GMT_InputState_Compare (a b : GMT_InputState) : Bool :=
  a = b

/-- InputState.c: `GMT_InputState_Clear` memsets the struct to zero. -/
def GMT_InputState_Clear (size : Nat) : GMT_InputState :=
  List.replicate size 0

/-- GameTest.h: the session mode. -/
inductive GMT_Mode where
  | DISABLED
  | RECORD
  | REPLAY
deriving DecidableEq, Repr

/-- Internal.h: decoded TAG_INPUT record. -/
structure GMT_DecodedInput where
  timestamp : ℚ
  input : GMT_InputState
deriving DecidableEq

instance : Inhabited GMT_DecodedInput := ⟨⟨0, []⟩⟩

/-- Internal.h: decoded TAG_SIGNAL record. -/
structure GMT_DecodedSignal where
  timestamp : ℚ
  signal_id : Int
deriving DecidableEq

instance : Inhabited GMT_DecodedSignal := ⟨⟨0, 0⟩⟩

/-- Decoded PIN/TRACK record: key, sequential index, payload size and bytes
(the C struct stores the payload in fixed-capacity inline storage). -/
structure GMT_DecodedDataRecord where
  key : Nat
  index : Nat
  size : Nat
  data : List Nat
deriving DecidableEq

instance : Inhabited GMT_DecodedDataRecord := ⟨⟨0, 0, 0, []⟩⟩

/-- Tag distinguishing PIN from TRACK data records. -/
inductive GMT_DataTag where
  | pin
  | track
deriving DecidableEq

/-- One tagged record of the trace file, at the structured level (the tag byte
plus the decoded body that `fwrite` serialises). -/
inductive GMT_TraceRecord where
  | input (timestamp : ℚ) (state : GMT_InputState)
  | signal (timestamp : ℚ) (id : Int)
  | data (tag : GMT_DataTag) (key : Nat) (index : Nat) (payload : List Nat)
deriving DecidableEq

/-- Internal.h: `GMT_MAX_FAILED_ASSERTIONS`. -/
def GMT_MAX_FAILED_ASSERTIONS : Nat := 1024

/-- Internal.h: `GMT_MAX_UNIQUE_ASSERTIONS`. -/
def GMT_MAX_UNIQUE_ASSERTIONS : Nat := 2048

/-- GameTest.h: `GMT_MAX_DATA_RECORD_PAYLOAD` (256-byte Pin/Track payload cap). -/
def GMT_MAX_DATA_RECORD_PAYLOAD : Nat := 256

/-- Record.c: `GMT__MAX_INJECT_BATCH`, the per-invocation injection batch cap. -/
def GMT__MAX_INJECT_BATCH : Nat := 8

/-- Record.c: the `1e18` "infinitely far in the future" sentinel timestamp
(exactly representable as a double). -/
def GMT_FAR_FUTURE : ℚ := 10 ^ 18

/-- Internal.h: the global framework state `GMT_State` (g_gmt), together with
the replay/pin/track fields that the .c files use.  The failed-assertion array
stores the call-site hashes of the stored failures; the open-addressing
unique-site hash set is modelled as a bounded dedup list with the same
observable behaviour (membership test, saturate when full). -/
structure GMT_State where
  initialized : Bool
  mode : GMT_Mode
  setup_fail_assertion_trigger_count : Int
  input_size : Nat
  failed_assertions : List Int
  failed_assertion_count : Nat
  assertion_fire_count : Int
  total_assertion_count : Nat
  unique_assertion_count : Nat
  seen_assertion_sites : List Int
  test_failed : Bool
  frame_index : Nat
  record_start_time : ℚ
  replay_time_offset : ℚ
  signal_wait_start : ℚ
  record_file : Option (List GMT_TraceRecord)
  record_prev_input : GMT_InputState
  record_input_count : Nat
  record_signal_count : Nat
  record_pin_count : Nat
  record_track_count : Nat
  replay_inputs : List GMT_DecodedInput
  replay_input_cursor : Nat
  replay_signals : List GMT_DecodedSignal
  replay_signal_cursor : Nat
  replay_pins : List GMT_DecodedDataRecord
  replay_tracks : List GMT_DecodedDataRecord
  replay_prev_input : GMT_InputState
  replay_current_input : GMT_InputState
  waiting_for_signal : Bool
  waiting_signal_id : Int
  pin_counter : List (Nat × Nat)
  track_counter : List (Nat × Nat)
deriving DecidableEq

/-- GameTest.c: the zeroed state produced by `memset(&g_gmt, 0, sizeof(g_gmt))`
for a build whose `GMT_InputState` struct has `n` bytes. -/
def GMT_State.zeroed (n : Nat) : GMT_State where
  initialized := false
  mode := .DISABLED
  setup_fail_assertion_trigger_count := 0
  input_size := n
  failed_assertions := []
  failed_assertion_count := 0
  assertion_fire_count := 0
  total_assertion_count := 0
  unique_assertion_count := 0
  seen_assertion_sites := []
  test_failed := false
  frame_index := 0
  record_start_time := 0
  replay_time_offset := 0
  signal_wait_start := 0
  record_file := none
  record_prev_input := GMT_InputState_Clear n
  record_input_count := 0
  record_signal_count := 0
  record_pin_count := 0
  record_track_count := 0
  replay_inputs := []
  replay_input_cursor := 0
  replay_signals := []
  replay_signal_cursor := 0
  replay_pins := []
  replay_tracks := []
  replay_prev_input := GMT_InputState_Clear n
  replay_current_input := GMT_InputState_Clear n
  waiting_for_signal := false
  waiting_signal_id := 0
  pin_counter := []
  track_counter := []

/-- The effective replay clock, `(now − record_start_time) − replay_time_offset`
(Record.c `GMT__CollectPendingInjections`, Signal.c `GMT_SyncSignal_`). -/
def replayTime (s : GMT_State) (now : ℚ) : ℚ :=
  (now - s.record_start_time) - s.replay_time_offset

/-- Modelled from the spec: the Key-Sequence Counter ("per-key call-ordinal
tracker used by Pin/Track to pair the Nth call at a call site with the Nth
recorded entry for that key; resets once per logical tick", spec sections 2 and
4.6).  The `GMT_KeyCounter` implementation file is not under src/ (only its
callers in Pin.c, Track.c and GameTest.c are).  `GMT_KeyCounter_Next` returns
the 0-based count of prior calls with this key in the current tick and
increments it. -/
def GMT_KeyCounter_Next : List (Nat × Nat) → Nat → List (Nat × Nat) × Nat
  | [], key => ([(key, 1)], 0)
  | (k, n) :: rest, key =>
    if k = key then ((k, n + 1) :: rest, n)
    else
      let (rest', idx) := GMT_KeyCounter_Next rest key
      ((k, n) :: rest', idx)

/-- Modelled from the spec: resetting all per-key counters for a new tick. -/
def GMT_KeyCounter_Reset : List (Nat × Nat) :=
  []

/-- Record.c `GMT_Record_OpenForWrite` (structured level): opens a fresh trace
for writing (the header bytes it emits are `openForWriteHeaderBytes` below) and
zeroes the per-kind record counters. -/
def GMT_Record_OpenForWrite (s : GMT_State) : GMT_State :=
  { s with record_file := some []
           record_input_count := 0
           record_signal_count := 0
           record_pin_count := 0
           record_track_count := 0 }

/-- Record.c `GMT_Record_CloseWrite`: writes TAG_END and closes the file. -/
def GMT_Record_CloseWrite (s : GMT_State) : GMT_State :=
  match s.record_file with
  | none => s
  | some _ => { s with record_file := none }

/-- Record.c `GMT_Record_WriteInput`: captures a snapshot, stamps it with
`now − record_start_time`, suppresses the write when it is byte-identical to
the previously written snapshot, otherwise appends a TAG_INPUT record. -/
def GMT_Record_WriteInput (s : GMT_State) (now : ℚ) (captured : GMT_InputState) :
    GMT_State :=
  match s.record_file with
  | none => s
  | some recs =>
    if GMT_InputState_Compare captured s.record_prev_input then s
    else
      { s with record_prev_input := captured
               record_file :=
                 some (recs ++ [GMT_TraceRecord.input (now - s.record_start_time) captured])
               record_input_count := s.record_input_count + 1 }

/-- Record.c `GMT_Record_WriteSignal`: appends a TAG_SIGNAL record
unconditionally (no delta suppression for signals). -/
def GMT_Record_WriteSignal (s : GMT_State) (signal_id : Int) (now : ℚ) :
    GMT_State :=
  match s.record_file with
  | none => s
  | some recs =>
    { s with record_file :=
               some (recs ++ [GMT_TraceRecord.signal (now - s.record_start_time) signal_id])
             record_signal_count := s.record_signal_count + 1 }

/-- Record.c `GMT_Record_WriteDataRecord`: appends a PIN or TRACK record unless
the payload exceeds `GMT_MAX_DATA_RECORD_PAYLOAD` (then it is logged and
skipped). -/
def GMT_Record_WriteDataRecord (s : GMT_State) (tag : GMT_DataTag)
    (key index : Nat) (data : List Nat) : GMT_State :=
  match s.record_file with
  | none => s
  | some recs =>
    if GMT_MAX_DATA_RECORD_PAYLOAD < data.length then s
    else
      let s1 := { s with record_file := some (recs ++ [GMT_TraceRecord.data tag key index data]) }
      match tag with
      | .pin => { s1 with record_pin_count := s1.record_pin_count + 1 }
      | .track => { s1 with record_track_count := s1.record_track_count + 1 }

/-- Record.c `GMT_Record_FindDecoded`: linear scan returning the first entry
matching `(key, index)`. -/
def GMT_Record_FindDecoded (arr : List GMT_DecodedDataRecord)
    (key index : Nat) : Option GMT_DecodedDataRecord :=
  arr.find? fun r => r.key = key && r.index = index

/-- Record.c `GMT_Record_FreeReplay`: frees the decoded arrays and zeroes the
counts and the two cursors. -/
def GMT_Record_FreeReplay (s : GMT_State) : GMT_State :=
  { s with replay_inputs := []
           replay_signals := []
           replay_pins := []
           replay_tracks := []
           replay_input_cursor := 0
           replay_signal_cursor := 0 }

/-- Record.c `GMT__CollectPendingInjections`, the while loop: `fuel` counts the
remaining iterations (`GMT__MAX_INJECT_BATCH − count`), `accRev` is the
collected `(out_new, out_prev)` pairs most recent first (so the C expression
`count == 0 ? g_gmt.replay_prev_input : out_new[count-1]` is the head of
`accRev` when non-empty). -/
def GMT__CollectGo (s : GMT_State) (now rt : ℚ) :
    Nat → List (GMT_InputState × GMT_InputState) →
    GMT_State × List (GMT_InputState × GMT_InputState)
  | 0, accRev => (s, accRev.reverse)
  | fuel + 1, accRev =>
    if ¬ s.replay_input_cursor < s.replay_inputs.length ∧
       ¬ s.replay_signal_cursor < s.replay_signals.length then
      (s, accRev.reverse)
    else
      let it :=
        if s.replay_input_cursor < s.replay_inputs.length then
          (s.replay_inputs.getD s.replay_input_cursor default).timestamp
        else GMT_FAR_FUTURE
      let st :=
        if s.replay_signal_cursor < s.replay_signals.length then
          (s.replay_signals.getD s.replay_signal_cursor default).timestamp
        else GMT_FAR_FUTURE
      if s.replay_signal_cursor < s.replay_signals.length ∧ st ≤ it then
        if rt < st then (s, accRev.reverse)
        else
          ({ s with waiting_for_signal := true
                    waiting_signal_id :=
                      (s.replay_signals.getD s.replay_signal_cursor
                        default).signal_id
                    signal_wait_start := now },
           accRev.reverse)
      else if rt < it then (s, accRev.reverse)
      else
        let di := s.replay_inputs.getD s.replay_input_cursor default
        let prev :=
          match accRev with
          | [] => s.replay_prev_input
          | (n, _) :: _ => n
        GMT__CollectGo
          { s with replay_prev_input := di.input
                   replay_current_input := di.input
                   replay_input_cursor := s.replay_input_cursor + 1 }
          now rt fuel ((di.input, prev) :: accRev)

/-- Record.c `GMT__CollectPendingInjections`: refuses to collect while gated on
a signal, otherwise runs the batch loop at the current replay time.  Returns
the updated state and the collected `(new, prev)` pairs in collection order. -/
def GMT__CollectPendingInjections (s : GMT_State) (now : ℚ) :
    GMT_State × List (GMT_InputState × GMT_InputState) :=
  if s.waiting_for_signal then (s, [])
  else GMT__CollectGo s now (replayTime s now) GMT__MAX_INJECT_BATCH []

/-- Record.c `GMT_Record_InjectInput`: collects the pending batch and hands
each collected `(new, prev)` pair, in order, to the external injection
capability (`GMT_Platform_InjectInput`); the returned list is that sequence of
calls. -/
def GMT_Record_InjectInput (s : GMT_State) (now : ℚ) :
    GMT_State × List (GMT_InputState × GMT_InputState) :=
  GMT__CollectPendingInjections s now

/-- GameTest.c `GMT_Fail_`: marks the run failed and invokes the fail callback
or the default (report + abort); the returned flag records that the fail action
was invoked. -/
def GMT_Fail_ (s : GMT_State) : GMT_State × Bool :=
  if ¬ s.initialized then (s, false)
  else if s.mode = .DISABLED then (s, false)
  else ({ s with test_failed := true }, true)

/-- Assert.c `GMT_TrackAssertionSite_`: inserts a call-site hash into the
bounded unique-site set (saturating silently when full). -/
def GMT_TrackAssertionSite_ (s : GMT_State) (hash : Int) : GMT_State :=
  if s.seen_assertion_sites.contains hash then s
  else if s.seen_assertion_sites.length < GMT_MAX_UNIQUE_ASSERTIONS then
    { s with seen_assertion_sites := hash :: s.seen_assertion_sites
             unique_assertion_count := s.unique_assertion_count + 1 }
  else s

/-- Assert.c `GMT_Assert_`: counts the evaluation, tracks the call site, and on
failure stores the assertion (bounded), bumps the fire count and invokes
`GMT_Fail_` once the fire count reaches the trigger threshold (a configured
threshold ≤ 1 is treated as 1).  The returned flag records whether `GMT_Fail_`
was invoked by this call. -/
def GMT_Assert_ (s : GMT_State) (condition : Bool) (locHash : Int) :
    GMT_State × Bool :=
  if ¬ s.initialized ∨ s.mode = .DISABLED then (s, false)
  else
    let s1 := { s with total_assertion_count := s.total_assertion_count + 1 }
    let s2 := GMT_TrackAssertionSite_ s1 locHash
    if condition then (s2, false)
    else
      let s3 := { s2 with assertion_fire_count := s2.assertion_fire_count + 1 }
      let s4 :=
        if s3.failed_assertion_count < GMT_MAX_FAILED_ASSERTIONS then
          { s3 with failed_assertions := s3.failed_assertions ++ [locHash]
                    failed_assertion_count := s3.failed_assertion_count + 1 }
        else s3
      let trigger_count := s4.setup_fail_assertion_trigger_count
      let fire_count := s4.assertion_fire_count
      let trigger_count' := if trigger_count ≤ 1 then 1 else trigger_count
      if trigger_count' ≤ fire_count then ((GMT_Fail_ s4).1, true)
      else (s4, false)

/-- Signal.c `GMT_SyncSignal_`: in RECORD mode writes a signal record; in
REPLAY mode advances the signal cursor when the emitted id matches the next
expected recorded signal, reconciling the replay clock (late case: the gate was
already set for this id, `offset += now − wait_start`; early case:
`offset += replay_time_now − st`).  A mismatched or surplus id is logged and
ignored.  Note: the code never clears `waiting_for_signal` here. -/
def GMT_SyncSignal_ (s : GMT_State) (id : Int) (now : ℚ) : GMT_State :=
  if ¬ s.initialized then s
  else if s.mode = .DISABLED then s
  else
    match s.mode with
    | .RECORD => GMT_Record_WriteSignal s id now
    | .REPLAY =>
      if ¬ s.replay_signal_cursor < s.replay_signals.length then s
      else
        let sig := s.replay_signals.getD s.replay_signal_cursor default
        if ¬ sig.signal_id = id then s
        else
          let st := sig.timestamp
          let s1 :=
            if s.waiting_for_signal ∧ s.waiting_signal_id = id then
              { s with replay_time_offset :=
                         s.replay_time_offset + (now - s.signal_wait_start) }
            else
              let replay_time_now := replayTime s now
              { s with replay_time_offset :=
                         s.replay_time_offset + (replay_time_now - st) }
          { s1 with replay_signal_cursor := s.replay_signal_cursor + 1 }
    | .DISABLED => s

/-- Pin.c `GMT_Pin_` (shared helper behind the typed entry points): takes the
next per-key ordinal; in RECORD mode persists `(key, index, bytes)` and leaves
the live value untouched; in REPLAY mode looks up `(key, index)` in the decoded
pins and overwrites the live value with the recorded bytes on a size-matching
hit, leaving it unchanged (and logging) on a miss or size mismatch.  Returns
the updated state and the live value after the call. -/
def GMT_Pin_ (s : GMT_State) (key : Nat) (data : List Nat) :
    GMT_State × List Nat :=
  if ¬ s.initialized ∨ s.mode = .DISABLED then (s, data)
  else if data.length = 0 then (s, data)
  else if GMT_MAX_DATA_RECORD_PAYLOAD < data.length then (s, data)
  else
    let (counter', index) := GMT_KeyCounter_Next s.pin_counter key
    let s1 := { s with pin_counter := counter' }
    match s1.mode with
    | .RECORD => (GMT_Record_WriteDataRecord s1 .pin key index data, data)
    | .REPLAY =>
      match GMT_Record_FindDecoded s1.replay_pins key index with
      | none => (s1, data)
      | some rec => if ¬ rec.size = data.length then (s1, data) else (s1, rec.data)
    | .DISABLED => (s1, data)

/-- Track.c `GMT_Track_` (shared helper): takes the next per-key ordinal; in
RECORD mode persists the snapshot; in REPLAY mode looks up `(key, index)`,
skips the check on a miss or size mismatch (logged), and otherwise compares the
recorded and current bytes, raising an assertion failure through `GMT_Assert_`
when they differ.  The memcmp comparison modes (int/uint/bool/bytes) are
modelled; the float/double epsilon modes are floating-point and outside this
embedding (no claim depends on them). -/
def GMT_Track_ (s : GMT_State) (key : Nat) (data : List Nat) (locHash : Int) :
    GMT_State :=
  if ¬ s.initialized ∨ s.mode = .DISABLED then s
  else if data.length = 0 then s
  else if GMT_MAX_DATA_RECORD_PAYLOAD < data.length then s
  else
    let (counter', index) := GMT_KeyCounter_Next s.track_counter key
    let s1 := { s with track_counter := counter' }
    match s1.mode with
    | .RECORD => GMT_Record_WriteDataRecord s1 .track key index data
    | .REPLAY =>
      match GMT_Record_FindDecoded s1.replay_tracks key index with
      | none => s1
      | some rec =>
        if ¬ rec.size = data.length then s1
        else if rec.data = data then s1
        else (GMT_Assert_ s1 false locHash).1
    | .DISABLED => s1

/-- GameTest.c `GMT_Update_`: the per-tick driver.  Resets the per-tick key
counters, runs the Recorder (RECORD, with `captured` the snapshot the platform
capture would return) or the Injector (REPLAY), and advances the tick counter.
Returns the `(new, prev)` pairs handed to the injection capability. -/
def GMT_Update_ (s : GMT_State) (now : ℚ) (captured : GMT_InputState) :
    GMT_State × List (GMT_InputState × GMT_InputState) :=
  if ¬ s.initialized then (s, [])
  else if s.mode = .DISABLED then (s, [])
  else
    let s1 := { s with pin_counter := GMT_KeyCounter_Reset
                       track_counter := GMT_KeyCounter_Reset }
    match s1.mode with
    | .RECORD =>
      let s2 := GMT_Record_WriteInput s1 now captured
      ({ s2 with frame_index := s2.frame_index + 1 }, [])
    | .REPLAY =>
      let (s2, calls) := GMT_Record_InjectInput s1 now
      ({ s2 with frame_index := s2.frame_index + 1 }, calls)
    | .DISABLED => ({ s1 with frame_index := s1.frame_index + 1 }, [])

/-- GameTest.c `GMT_Reset_`: tears down and recreates the trace connection
(truncating for RECORD; reloading for REPLAY, with `reload` the decoded arrays
the fresh `GMT_Record_LoadReplay` would produce, `none` if it fails) and zeroes
the run statistics and clocks, leaving mode and configuration alone. -/
def GMT_Reset_ (s : GMT_State) (now : ℚ)
    (reload : Option (List GMT_DecodedInput × List GMT_DecodedSignal ×
                      List GMT_DecodedDataRecord × List GMT_DecodedDataRecord)) :
    GMT_State :=
  if ¬ s.initialized then s
  else if s.mode = .DISABLED then s
  else
    let s1 :=
      match s.mode with
      | .RECORD => GMT_Record_OpenForWrite (GMT_Record_CloseWrite s)
      | .REPLAY =>
        let sf := GMT_Record_FreeReplay s
        match reload with
        | none => sf
        | some (di, ds, dp, dt) =>
          { sf with replay_inputs := di
                    replay_signals := ds
                    replay_pins := dp
                    replay_tracks := dt }
      | .DISABLED => s
    { s1 with frame_index := 0
              test_failed := false
              failed_assertions := []
              failed_assertion_count := 0
              assertion_fire_count := 0
              waiting_for_signal := false
              waiting_signal_id := 0
              replay_prev_input := GMT_InputState_Clear s1.input_size
              pin_counter := GMT_KeyCounter_Reset
              track_counter := GMT_KeyCounter_Reset
              record_start_time := now
              replay_time_offset := 0
              signal_wait_start := 0 }

/-- GameTest.c `GMT_Init_`: zeroes the state, copies the setup, and performs
the mode-specific initialisation (`openOk` stands for the success of the
record-side `fopen`; `loaded` for the decoded arrays a successful
`GMT_Record_LoadReplay` would deliver, `none` if the load fails).  On failure
the state is memset back to zero and `false` is returned. -/
def GMT_Init_ (mode : GMT_Mode) (trigger : Int) (n : Nat) (now : ℚ)
    (openOk : Bool)
    (loaded : Option (List GMT_DecodedInput × List GMT_DecodedSignal ×
                      List GMT_DecodedDataRecord × List GMT_DecodedDataRecord)) :
    GMT_State × Bool :=
  let s0 := { GMT_State.zeroed n with
              mode := mode
              setup_fail_assertion_trigger_count := trigger }
  match mode with
  | .DISABLED => ({ s0 with initialized := true }, true)
  | .RECORD =>
    if openOk then
      ({ GMT_Record_OpenForWrite s0 with initialized := true
                                         record_start_time := now }, true)
    else (GMT_State.zeroed n, false)
  | .REPLAY =>
    match loaded with
    | none => (GMT_State.zeroed n, false)
    | some (di, ds, dp, dt) =>
      ({ s0 with replay_inputs := di
                 replay_signals := ds
                 replay_pins := dp
                 replay_tracks := dt
                 initialized := true
                 record_start_time := now }, true)

/-! ### Byte-level trace file model (header writing and `GMT_Record_LoadReplay`)

Internal.h fixes the on-disk header `GMT_FileHeader { uint16_t magic; uint16_t
version; }` (packed, little-endian) and the constants `GMT_RECORD_MAGIC` and
`GMT_RECORD_VERSION`.  The loader's two passes walk the raw bytes, so they are
modelled over `List Nat` with every byte read reduced mod 256 (the buffer holds
`uint8_t`).  The sizes of the two fixed-size record bodies depend on
`sizeof(GMT_InputState)` and struct packing, so they are parameters
(`LoadSizes`); the PIN/TRACK header `GMT_RawDataRecordHeader` and the PIN/TRACK
tag byte values are absent from src/ and are modelled from the spec (section 6:
`u32 key, u32 index, u32 size` little-endian, so 12 bytes; two fresh tag
bytes). -/

/-- Internal.h: `GMT_RECORD_MAGIC` (`0x54534D47u`, the four bytes 'GMST'). -/
def GMT_RECORD_MAGIC : Nat := 0x54534D47

/-- Internal.h: `GMT_RECORD_VERSION`. -/
def GMT_RECORD_VERSION : Nat := 2

/-- Internal.h: `GMT_RECORD_TAG_INPUT`. -/
def GMT_RECORD_TAG_INPUT : Nat := 0x01

/-- Internal.h: `GMT_RECORD_TAG_SIGNAL`. -/
def GMT_RECORD_TAG_SIGNAL : Nat := 0x02

/-- Modelled from the spec: the TAG_PIN byte value (the `GMT_RECORD_TAG_PIN`
definition is not under src/, only its uses; the exact value is immaterial to
every claim, it only needs to be distinct from the other tags). -/
def GMT_RECORD_TAG_PIN : Nat := 0x03

/-- Modelled from the spec: the TAG_TRACK byte value (definition not under
src/; any value distinct from the other tags). -/
def GMT_RECORD_TAG_TRACK : Nat := 0x04

/-- Internal.h: `GMT_RECORD_TAG_END`. -/
def GMT_RECORD_TAG_END : Nat := 0xFF

/-- Reads a little-endian `uint16_t` from two buffer bytes (each a `uint8_t`,
hence the mod 256). -/
def readU16le (data : List Nat) (off : Nat) : Nat :=
  data.getD off 0 % 256 + 256 * (data.getD (off + 1) 0 % 256)

/-- Reads a little-endian `uint32_t` from four buffer bytes. -/
def readU32le (data : List Nat) (off : Nat) : Nat :=
  readU16le data off + 65536 * readU16le data (off + 2)

/-- Little-endian byte serialisation of a `uint16_t` value. -/
def u16leBytes (v : Nat) : List Nat :=
  [v % 256, v / 256 % 256]

/-- Record.c `GMT_Record_OpenForWrite`, the header write: `hdr.magic =
GMT_RECORD_MAGIC` stores the 32-bit constant into the `uint16_t` field, which
truncates it mod 2^16; likewise for the version.  These are the four bytes
`fwrite(&hdr, sizeof(hdr), 1, fh)` puts at the start of every recorded trace. -/
def openForWriteHeaderBytes : List Nat :=
  u16leBytes (GMT_RECORD_MAGIC % 2 ^ 16) ++ u16leBytes (GMT_RECORD_VERSION % 2 ^ 16)

/-- The record-body sizes the loader skips over: `sizeof(GMT_RawInputRecord)`
and `sizeof(GMT_RawSignalRecord)` (both depend on the build's packed struct
layouts, so they are kept abstract). -/
structure LoadSizes where
  rawInputSize : Nat
  rawSignalSize : Nat
deriving DecidableEq

/-- The failure cases of `GMT_Record_LoadReplay` (each one `GMT_LogError` +
`goto cleanup` in Record.c; `allocFailed` covers the four decoded-array
allocations). -/
inductive GMT_LoadError where
  | tooSmall
  | badMagic
  | badVersion
  | truncatedInput
  | truncatedSignal
  | truncatedDataHeader
  | truncatedDataPayload
  | unknownTag
  | allocFailed
deriving DecidableEq

/-- Record.c `GMT_Record_LoadReplay`, first pass: walk the bytes after the
header tag-by-tag, counting records per kind and checking every body fits in
the remaining buffer.  Mirrors the `while (scan < end)` loop. -/
def scanRecords (sz : LoadSizes) (bytes : List Nat) :
    Except GMT_LoadError (Nat × Nat × Nat × Nat) :=
  match bytes with
  | [] => .ok (0, 0, 0, 0)
  | tag :: rest =>
    if tag = GMT_RECORD_TAG_END then .ok (0, 0, 0, 0)
    else if tag = GMT_RECORD_TAG_INPUT then
      if rest.length < sz.rawInputSize then .error .truncatedInput
      else
        match scanRecords sz (rest.drop sz.rawInputSize) with
        | .error e => .error e
        | .ok (i, s, p, t) => .ok (i + 1, s, p, t)
    else if tag = GMT_RECORD_TAG_SIGNAL then
      if rest.length < sz.rawSignalSize then .error .truncatedSignal
      else
        match scanRecords sz (rest.drop sz.rawSignalSize) with
        | .error e => .error e
        | .ok (i, s, p, t) => .ok (i, s + 1, p, t)
    else if tag = GMT_RECORD_TAG_PIN ∨ tag = GMT_RECORD_TAG_TRACK then
      if rest.length < 12 then .error .truncatedDataHeader
      else
        let psize := readU32le rest 8
        if (rest.drop 12).length < psize then .error .truncatedDataPayload
        else
          match scanRecords sz (rest.drop (12 + psize)) with
          | .error e => .error e
          | .ok (i, s, p, t) =>
            if tag = GMT_RECORD_TAG_PIN then .ok (i, s, p + 1, t)
            else .ok (i, s, p, t + 1)
    else .error .unknownTag
termination_by bytes.length
decreasing_by
  all_goals simp [List.length_drop]; omega

/-- Record.c `GMT_Record_LoadReplay`, second pass: decode each record into its
slot in file order (inputs and signals as their raw body bytes; pins and tracks
as `(key, index, size, payload)`).  This pass runs only on byte streams the
first pass has validated, so it has no failure branch (an unknown tag would
make the C loop spin; the model stops). -/
def decodeRecords (sz : LoadSizes) (bytes : List Nat) :
    List (List Nat) × List (List Nat) ×
    List GMT_DecodedDataRecord × List GMT_DecodedDataRecord :=
  match bytes with
  | [] => ([], [], [], [])
  | tag :: rest =>
    if tag = GMT_RECORD_TAG_END then ([], [], [], [])
    else if tag = GMT_RECORD_TAG_INPUT then
      let body := rest.take sz.rawInputSize
      let (i, s, p, t) := decodeRecords sz (rest.drop sz.rawInputSize)
      (body :: i, s, p, t)
    else if tag = GMT_RECORD_TAG_SIGNAL then
      let body := rest.take sz.rawSignalSize
      let (i, s, p, t) := decodeRecords sz (rest.drop sz.rawSignalSize)
      (i, body :: s, p, t)
    else if tag = GMT_RECORD_TAG_PIN ∨ tag = GMT_RECORD_TAG_TRACK then
      let key := readU32le rest 0
      let index := readU32le rest 4
      let psize := readU32le rest 8
      let payload := (rest.drop 12).take psize
      let rec' : GMT_DecodedDataRecord := ⟨key, index, psize, payload⟩
      let (i, s, p, t) := decodeRecords sz (rest.drop (12 + psize))
      if tag = GMT_RECORD_TAG_PIN then (i, s, rec' :: p, t)
      else (i, s, p, rec' :: t)
    else ([], [], [], [])
termination_by bytes.length
decreasing_by
  all_goals simp [List.length_drop]; omega

/-- The observable outcome of one `GMT_Record_LoadReplay` call: success flag,
error kind, whether the raw file buffer was freed (`GMT_Free(data)` in
`cleanup`), which of the four decoded arrays are left allocated in the session
when the call returns, the decoded contents, and the counts the session keeps
(set only on success). -/
structure LoadResult where
  ok : Bool
  err : Option GMT_LoadError
  dataFreed : Bool
  inputsAllocated : Bool
  signalsAllocated : Bool
  pinsAllocated : Bool
  tracksAllocated : Bool
  replay_inputs : List (List Nat)
  replay_signals : List (List Nat)
  replay_pins : List GMT_DecodedDataRecord
  replay_tracks : List GMT_DecodedDataRecord
  input_count : Nat
  signal_count : Nat
  pin_count : Nat
  track_count : Nat
deriving DecidableEq

/-- A failing load outcome: `ok = false`, the raw buffer freed by `cleanup`,
and the given allocation flags for the decoded arrays. -/
def loadFail (e : GMT_LoadError) (ia sa pa ta : Bool) : LoadResult :=
  ⟨false, some e, true, ia, sa, pa, ta, [], [], [], [], 0, 0, 0, 0⟩

/-- Record.c `GMT_Record_LoadReplay` over the in-memory file bytes: validate
the header (size, magic, version — note `hdr.magic` is the `uint16_t` read
from the file, compared against the full 32-bit `GMT_RECORD_MAGIC` constant,
exactly as the C comparison promotes it), run the counting pass, allocate the
four decoded arrays (`allocOk k` tells whether the (k+1)-th `GMT_Alloc` call
succeeds; arrays with count 0 are not allocated), then run the decoding pass.
The file-read phase (`fopen`/`fread`) is external and assumed to have produced
`data`. -/
def GMT_Record_LoadReplay (sz : LoadSizes) (allocOk : Nat → Bool)
    (data : List Nat) : LoadResult :=
  if data.length < 4 then loadFail .tooSmall false false false false
  else if ¬ readU16le data 0 = GMT_RECORD_MAGIC then
    loadFail .badMagic false false false false
  else if ¬ readU16le data 2 = GMT_RECORD_VERSION then
    loadFail .badVersion false false false false
  else
    match scanRecords sz (data.drop 4) with
    | .error e => loadFail e false false false false
    | .ok (ic, sc, pc, tc) =>
      let needI : Bool := decide (0 < ic)
      let needS : Bool := decide (0 < sc)
      let needP : Bool := decide (0 < pc)
      let needT : Bool := decide (0 < tc)
      let idxS : Nat := if needI then 1 else 0
      let idxP : Nat := idxS + (if needS then 1 else 0)
      let idxT : Nat := idxP + (if needP then 1 else 0)
      if needI ∧ ¬ allocOk 0 then loadFail .allocFailed false false false false
      else if needS ∧ ¬ allocOk idxS then
        loadFail .allocFailed needI false false false
      else if needP ∧ ¬ allocOk idxP then
        loadFail .allocFailed needI needS false false
      else if needT ∧ ¬ allocOk idxT then
        loadFail .allocFailed needI needS needP false
      else
        let (di, ds, dp, dt) := decodeRecords sz (data.drop 4)
        { ok := true
          err := none
          dataFreed := true
          inputsAllocated := needI
          signalsAllocated := needS
          pinsAllocated := needP
          tracksAllocated := needT
          replay_inputs := di
          replay_signals := ds
          replay_pins := dp
          replay_tracks := dt
          input_count := ic
          signal_count := sc
          pin_count := pc
          track_count := tc }

/-- Statement helper: the `(new, prev)` pairs produced by injecting the listed
snapshots in order, starting from the previously injected snapshot `prev`
(each injected snapshot becomes the `prev` of the next call). -/
def injectPairs (prev : GMT_InputState) :
    List GMT_InputState → List (GMT_InputState × GMT_InputState)
  | [] => []
  | x :: xs => (x, prev) :: injectPairs x xs

/-- Statement helper: the number of TAG_INPUT records in a structured trace. -/
def inputRecordCount (recs : List GMT_TraceRecord) : Nat :=
  recs.countP fun r =>
    match r with
    | .input _ _ => true
    | _ => false

/-- Statement helper: run `GMT_Record_WriteInput` over a list of
`(time, snapshot)` ticks, mirroring one capture per `GMT_Update_` in RECORD
mode. -/
def recordTicks (s : GMT_State) : List (ℚ × GMT_InputState) → GMT_State
  | [] => s
  | (now, cap) :: rest => recordTicks (GMT_Record_WriteInput s now cap) rest

/-! ### Concrete replay sessions used by individual claims -/

/-- A loaded replay session holding one recorded signal (timestamp 1, id 7)
followed by one recorded input (timestamp 2, snapshot byte 5). -/
def C2state : GMT_State :=
  { GMT_State.zeroed 1 with
    initialized := true
    mode := .REPLAY
    replay_inputs := [⟨2, [5]⟩]
    replay_signals := [⟨1, 7⟩] }

/-- The session after the injector has gated on the signal of `C2state`
(invoked at time 3, when both the signal and the input are due). -/
def C2afterGate : GMT_State :=
  (GMT_Record_InjectInput C2state 3).1

/-- The session after the application then emits the matching sync signal
(id 7) at time 4. -/
def C2afterSync : GMT_State :=
  GMT_SyncSignal_ C2afterGate 7 4

/-- A loaded replay session with two due input records (distinct snapshots)
and no signals. -/
def C3state : GMT_State :=
  { GMT_State.zeroed 1 with
    initialized := true
    mode := .REPLAY
    replay_inputs := [⟨0, [1]⟩, ⟨1, [2]⟩] }

/-- A replay session gated on signal id 7 (recorded timestamp 1) where the
gate was set at time 2, i.e. when the replay clock already read 2. -/
def C4state : GMT_State :=
  { GMT_State.zeroed 1 with
    initialized := true
    mode := .REPLAY
    replay_signals := [⟨1, 7⟩]
    waiting_for_signal := true
    waiting_signal_id := 7
    signal_wait_start := 2 }

/-- A replay session gated on signal id 7 at cursor 0 (used for the
mismatched-id and exhausted-stream cases). -/
def C6state : GMT_State :=
  { GMT_State.zeroed 1 with
    initialized := true
    mode := .REPLAY
    replay_signals := [⟨1, 7⟩]
    waiting_for_signal := true
    waiting_signal_id := 7 }

/-- A replay session whose decoded pins hold two entries for key 40, both
recorded with per-tick index 0 (e.g. one `GMT_PinInt` call in each of two
recorded ticks), with payloads [1] and [2]. -/
def C8state : GMT_State :=
  { GMT_State.zeroed 1 with
    initialized := true
    mode := .REPLAY
    replay_pins := [⟨40, 0, 1, [1]⟩, ⟨40, 0, 1, [2]⟩] }

/-- A record-mode session with an open, still-empty trace file. -/
def C8recState : GMT_State :=
  { GMT_State.zeroed 1 with
    initialized := true
    mode := .RECORD
    record_file := some [] }

/-! ### Helper lemmas -/

/-- Array indexing at a cursor whose drop-suffix is known. -/
theorem getD_of_drop_cons {α : Type} (l : List α) (n : Nat) (x d : α)
    (t : List α) (h : l.drop n = x :: t) : l.getD n d = x := by
  induction n generalizing l with
  | zero =>
    simp only [List.drop_zero] at h
    simp [h]
  | succ n ih =>
    cases l with
    | nil => simp at h
    | cons a l' =>
      simp only [List.drop_succ_cons] at h
      simpa [List.getD_cons_succ] using ih l' h

/-- A cursor whose drop-suffix is non-empty is in bounds. -/
theorem lt_length_of_drop_cons {α : Type} (l : List α) (n : Nat) (x : α)
    (t : List α) (h : l.drop n = x :: t) : n < l.length := by
  by_contra hn
  push_neg at hn
  rw [List.drop_eq_nil_iff.mpr hn] at h
  exact List.noConfusion h

/-- Advancing a cursor past the head of its drop-suffix. -/
theorem drop_succ_of_drop_cons {α : Type} (l : List α) (n : Nat) (x : α)
    (t : List α) (h : l.drop n = x :: t) : l.drop (n + 1) = t := by
  have hd : l.drop (n + 1) = (l.drop n).drop 1 := by
    rw [List.drop_drop]
  rw [hd, h, List.drop_one]
  rfl

/-- One iteration of the collect loop when the next pending signal is due and
wins the tie-break (`st ≤ it`, treating an exhausted input stream as the far
future): the loop sets the gate for that signal, records the wait start, stops,
and flushes what it had collected so far — without consuming the signal or the
input record. -/
theorem collectGo_gates_on_due_signal (now rt : ℚ) (fuel : Nat)
    (s : GMT_State) (accRev : List (GMT_InputState × GMT_InputState))
    (hsc : s.replay_signal_cursor < s.replay_signals.length)
    (hst : (s.replay_signals.getD s.replay_signal_cursor default).timestamp ≤
             (if s.replay_input_cursor < s.replay_inputs.length then
                (s.replay_inputs.getD s.replay_input_cursor default).timestamp
              else GMT_FAR_FUTURE))
    (hdue : ¬ rt <
        (s.replay_signals.getD s.replay_signal_cursor default).timestamp) :
    GMT__CollectGo s now rt (fuel + 1) accRev =
      ({ s with waiting_for_signal := true
                waiting_signal_id :=
                  (s.replay_signals.getD s.replay_signal_cursor
                    default).signal_id
                signal_wait_start := now }, accRev.reverse) := by
  simp only [GMT__CollectGo]
  rw [if_neg (fun hcontra => absurd hsc hcontra.2)]
  rw [if_pos hsc]
  rw [if_pos ⟨hsc, hst⟩]
  rw [if_neg hdue]

/-- The collect loop consumes exactly the due prefix `xs` of the pending
inputs when no signal is pending: it emits one `(new, prev)` pair per due
record, in file order, with the `prev` of each pair the snapshot injected
before it, and advances the input cursor by `xs.length`.  `accRev` must hold
the already-collected pairs, most recent first (its head's new snapshot being
the current `replay_prev_input`). -/
theorem collectGo_all_due (now rt : ℚ) :
    ∀ (xs : List GMT_DecodedInput) (fuel : Nat) (s : GMT_State)
      (accRev : List (GMT_InputState × GMT_InputState))
      (ys : List GMT_DecodedInput),
      s.replay_inputs.drop s.replay_input_cursor = xs ++ ys →
      s.replay_signals.length ≤ s.replay_signal_cursor →
      (∀ d ∈ xs, d.timestamp ≤ rt) →
      (∀ d, ys.head? = some d → rt < d.timestamp) →
      xs.length ≤ fuel →
      (accRev = [] ∨
        ∃ b r, accRev = (s.replay_prev_input, b) :: r) →
      (GMT__CollectGo s now rt fuel accRev).2 =
          accRev.reverse ++
            injectPairs s.replay_prev_input (xs.map GMT_DecodedInput.input) ∧
      (GMT__CollectGo s now rt fuel accRev).1.replay_input_cursor =
          s.replay_input_cursor + xs.length := by
  intro xs
  induction xs with
  | nil =>
    intro fuel s accRev ys hdrop hsig hxs hys hlen hinv
    have hsig' : ¬ s.replay_signal_cursor < s.replay_signals.length := by
      omega
    cases fuel with
    | zero => simp [GMT__CollectGo, injectPairs]
    | succ f =>
      cases ys with
      | nil =>
        have hnil : s.replay_inputs.drop s.replay_input_cursor = [] := by
          simpa using hdrop
        have hcur : ¬ s.replay_input_cursor < s.replay_inputs.length := by
          have := List.drop_eq_nil_iff.mp hnil
          omega
        simp only [GMT__CollectGo]
        rw [if_pos ⟨hcur, hsig'⟩]
        simp [injectPairs]
      | cons y ys' =>
        have hdrop' : s.replay_inputs.drop s.replay_input_cursor = y :: ys' := by
          simpa using hdrop
        have hcur : s.replay_input_cursor < s.replay_inputs.length :=
          lt_length_of_drop_cons _ _ _ _ hdrop'
        have hg : s.replay_inputs.getD s.replay_input_cursor default = y :=
          getD_of_drop_cons _ _ _ _ _ hdrop'
        have hyt : rt < y.timestamp := hys y (by simp)
        simp only [GMT__CollectGo]
        rw [if_neg (fun hcontra => hcontra.1 hcur)]
        rw [if_pos hcur, hg]
        rw [if_neg (fun hcontra => hsig' hcontra.1)]
        rw [if_pos hyt]
        simp [injectPairs]
  | cons x xs' ih =>
    intro fuel s accRev ys hdrop hsig hxs hys hlen hinv
    cases fuel with
    | zero => simp at hlen
    | succ f =>
      have hdrop' : s.replay_inputs.drop s.replay_input_cursor
          = x :: (xs' ++ ys) := by simpa using hdrop
      have hcur : s.replay_input_cursor < s.replay_inputs.length :=
        lt_length_of_drop_cons _ _ _ _ hdrop'
      have hg : s.replay_inputs.getD s.replay_input_cursor default = x :=
        getD_of_drop_cons _ _ _ _ _ hdrop'
      have hsig' : ¬ s.replay_signal_cursor < s.replay_signals.length := by
        omega
      have hxt : x.timestamp ≤ rt := hxs x (by simp)
      have hstep : GMT__CollectGo s now rt (f + 1) accRev
          = GMT__CollectGo
              { s with replay_prev_input := x.input
                       replay_current_input := x.input
                       replay_input_cursor := s.replay_input_cursor + 1 }
              now rt f ((x.input, s.replay_prev_input) :: accRev) := by
        simp only [GMT__CollectGo]
        rw [if_neg (fun hcontra => hcontra.1 hcur)]
        rw [if_pos hcur, hg]
        rw [if_neg (fun hcontra => hsig' hcontra.1)]
        rw [if_neg (not_lt.mpr hxt)]
        rcases hinv with h | ⟨b, r, h⟩ <;> subst h <;> rfl
      obtain ⟨h1, h2⟩ := ih f
        { s with replay_prev_input := x.input
                 replay_current_input := x.input
                 replay_input_cursor := s.replay_input_cursor + 1 }
        ((x.input, s.replay_prev_input) :: accRev) ys
        (drop_succ_of_drop_cons _ _ _ _ hdrop') hsig
        (fun d hd => hxs d (List.mem_cons_of_mem _ hd)) hys
        (by simpa using Nat.succ_le_succ_iff.mp (by simpa using hlen))
        (Or.inr ⟨s.replay_prev_input, accRev, rfl⟩)
      rw [hstep]
      constructor
      · rw [h1]
        simp [injectPairs, List.reverse_cons, List.append_assoc]
      · rw [h2]
        simp
        omega

/-- The injector is a no-op while gated on a signal: it collects and injects
nothing and leaves the state untouched. -/
theorem injectInput_gated (s' : GMT_State) (t : ℚ)
    (h : s'.waiting_for_signal = true) :
    GMT_Record_InjectInput s' t = (s', []) := by
  unfold GMT_Record_InjectInput GMT__CollectPendingInjections
  rw [if_pos h]

/-- Evaluation of `GMT_SyncSignal_` when the emitted id matches the next
expected recorded signal: the cursor advances and the offset moves by the
late-case or early-case correction; no other field changes (in particular the
`waiting_for_signal` gate is not cleared). -/
theorem syncSignal_match_eq (s : GMT_State) (id : Int) (now : ℚ)
    (hinit : s.initialized = true) (hmode : s.mode = .REPLAY)
    (hc : s.replay_signal_cursor < s.replay_signals.length)
    (hid : (s.replay_signals.getD s.replay_signal_cursor default).signal_id
             = id) :
    GMT_SyncSignal_ s id now =
      if s.waiting_for_signal = true ∧ s.waiting_signal_id = id then
        { s with replay_time_offset :=
                   s.replay_time_offset + (now - s.signal_wait_start)
                 replay_signal_cursor := s.replay_signal_cursor + 1 }
      else
        { s with replay_time_offset :=
                   s.replay_time_offset + (replayTime s now -
                     (s.replay_signals.getD s.replay_signal_cursor
                       default).timestamp)
                 replay_signal_cursor := s.replay_signal_cursor + 1 } := by
  unfold GMT_SyncSignal_
  rw [if_neg (by simp [hinit])]
  rw [if_neg (by simp [hmode])]
  simp only [hmode]
  rw [if_neg (by simpa using hc)]
  rw [if_neg (by simpa using hid)]
  by_cases hw : s.waiting_for_signal = true ∧ s.waiting_signal_id = id
  · rw [if_pos ⟨hw.1, hw.2⟩, if_pos hw]
  · rw [if_neg (fun hcontra => hw ⟨hcontra.1, hcontra.2⟩), if_neg hw]

/-- `GMT_Record_WriteInput` suppresses the write when the captured snapshot is
byte-identical to the previously written one (delta compression). -/
theorem writeInput_noop (s : GMT_State) (now : ℚ) (cap : GMT_InputState)
    (hmatch : GMT_InputState_Compare cap s.record_prev_input = true) :
    GMT_Record_WriteInput s now cap = s := by
  unfold GMT_Record_WriteInput
  cases hf : s.record_file <;> simp [hf, hmatch]

/-- `GMT_Record_WriteInput` appends one TAG_INPUT record when the captured
snapshot differs from the previously written one. -/
theorem writeInput_append (s : GMT_State) (now : ℚ) (cap : GMT_InputState)
    (recs : List GMT_TraceRecord) (hf : s.record_file = some recs)
    (hne : ¬ cap = s.record_prev_input) :
    GMT_Record_WriteInput s now cap =
      { s with record_prev_input := cap
               record_file := some (recs ++
                 [GMT_TraceRecord.input (now - s.record_start_time) cap])
               record_input_count := s.record_input_count + 1 } := by
  simp only [GMT_Record_WriteInput, hf]
  rw [if_neg (by simp [GMT_InputState_Compare, hne])]

/-- A run of ticks whose snapshots all equal the last-written snapshot leaves
the recording session untouched. -/
theorem recordTicks_const_noop (snap : GMT_InputState) :
    ∀ (ticks : List (ℚ × GMT_InputState)) (s : GMT_State),
      s.record_prev_input = snap → (∀ p ∈ ticks, p.2 = snap) →
      recordTicks s ticks = s := by
  intro ticks
  induction ticks with
  | nil => intro s hp hall; rfl
  | cons t rest ih =>
    intro s hp hall
    obtain ⟨now, cap⟩ := t
    have hcap : cap = snap := hall (now, cap) (by simp)
    have hw : GMT_Record_WriteInput s now cap = s :=
      writeInput_noop s now cap (by simp [GMT_InputState_Compare, hcap, hp])
    simp only [recordTicks, hw]
    exact ih s hp (fun p hmem => hall p (by simp [hmem]))

/-- The `(key, index)` scan of `GMT_Record_FindDecoded` factors through the
key filter: it is the first entry among the key's entries (in file order)
whose stored index matches. -/
theorem findDecoded_filter_key (arr : List GMT_DecodedDataRecord)
    (key j : Nat) :
    GMT_Record_FindDecoded arr key j =
      (arr.filter fun r => decide (r.key = key)).find?
        fun r => decide (r.index = j) := by
  rw [List.find?_filter]
  unfold GMT_Record_FindDecoded
  congr 1
  funext r
  by_cases hk : r.key = key <;> by_cases hj : r.index = j <;> simp [hk, hj]

/-- On a list whose stored indices are consecutive starting at `off`, the
first-match search for index `off + j` returns exactly the j-th element. -/
theorem find?_index_of_consecutive :
    ∀ (l : List GMT_DecodedDataRecord) (off j : Nat),
      l.map (fun r => r.index) = (List.range l.length).map (· + off) →
      l.find? (fun r => decide (r.index = off + j)) = l.get? j := by
  intro l
  induction l with
  | nil => intro off j h; rfl
  | cons r rest ih =>
    intro off j h
    rw [List.length_cons, List.range_succ_eq_map] at h
    simp only [List.map_cons, List.map_map] at h
    injection h with h1 h2
    have h2' : rest.map (fun r => r.index)
        = (List.range rest.length).map (· + (off + 1)) := by
      rw [h2]
      apply List.map_congr_left
      intro a _
      simp [Nat.succ_eq_add_one]
      omega
    cases j with
    | zero =>
      rw [List.find?_cons]
      simp [h1]
    | succ j' =>
      rw [List.find?_cons]
      have hfalse : (fun r => decide (r.index = off + (j' + 1))) r = false := by
        simp only [h1, decide_eq_false_iff_not]
        omega
      simp only [hfalse]
      have harith : off + (j' + 1) = (off + 1) + j' := by omega
      rw [show (fun r : GMT_DecodedDataRecord =>
              decide (r.index = off + (j' + 1)))
            = (fun r : GMT_DecodedDataRecord =>
              decide (r.index = (off + 1) + j'))
          from by funext r; rw [harith]]
      rw [ih (off + 1) j' h2']
      rfl

/-! ### C1 — round trip / header validation -/

/-- C1: a trace whose header was written by `GMT_Record_OpenForWrite` is
rejected by `GMT_Record_LoadReplay` with "invalid file magic", whatever records
follow: the `uint16_t` magic field stores `GMT_RECORD_MAGIC` truncated to
`0x4D47`, and the load check compares that 16-bit value against the full
32-bit constant `0x54534D47`, which can never match.  Consequently no recorded
trace ever replays, and the record → replay round trip of `inject_input` calls
fails for every recorded sequence. -/
theorem C1_self_recorded_trace_rejected (sz : LoadSizes) (allocOk : Nat → Bool)
    (rest : List Nat) :
    (GMT_Record_LoadReplay sz allocOk (openForWriteHeaderBytes ++ rest)).ok
      = false ∧
    (GMT_Record_LoadReplay sz allocOk (openForWriteHeaderBytes ++ rest)).err
      = some .badMagic := by
  have hm : readU16le (openForWriteHeaderBytes ++ rest) 0 = 19783 := rfl
  have hl4 : openForWriteHeaderBytes.length = 4 := rfl
  have hl : ¬ (openForWriteHeaderBytes ++ rest).length < 4 := by
    rw [List.length_append, hl4]
    omega
  have hmm : ¬ readU16le (openForWriteHeaderBytes ++ rest) 0
      = GMT_RECORD_MAGIC := by
    rw [hm]
    decide
  unfold GMT_Record_LoadReplay
  rw [if_neg hl, if_pos hmm]
  exact ⟨rfl, rfl⟩

/-! ### C2 — signal gating across a sync -/

/-- C2: with a recorded signal at timestamp 1 and a recorded input at
timestamp 2 both due, the injector processes the signal first (sets the gate,
does not consume the input, injects nothing), and after the application emits
the matching sync signal the gate is STILL set — `GMT_SyncSignal_` never
clears `waiting_for_signal` — so the recorded input is never injected by any
later invocation, not merely "until the application calls sync_signal". -/
theorem C2_gate_survives_matching_sync :
    (GMT_Record_InjectInput C2state 3).2 = [] ∧
    C2afterGate.waiting_for_signal = true ∧
    C2afterGate.waiting_signal_id = 7 ∧
    C2afterGate.replay_input_cursor = 0 ∧
    (GMT_Record_InjectInput C2afterGate 3).2 = [] ∧
    C2afterSync.replay_signal_cursor = 1 ∧
    C2afterSync.waiting_for_signal = true ∧
    (GMT_Record_InjectInput C2afterSync 10).2 = [] ∧
    (GMT_Record_InjectInput C2afterSync 10).1.replay_input_cursor = 0 ∧
    (GMT_Record_InjectInput C2afterSync 10).1.waiting_for_signal = true := by
  have hrt : replayTime C2state 3 = 3 := by
    norm_num [replayTime, C2state, GMT_State.zeroed]
  have hgate : GMT_Record_InjectInput C2state 3 =
      ({ C2state with waiting_for_signal := true
                      waiting_signal_id := 7
                      signal_wait_start := 3 }, []) := by
    unfold GMT_Record_InjectInput GMT__CollectPendingInjections
    rw [if_neg (by decide), hrt]
    exact collectGo_gates_on_due_signal 3 3 7 C2state []
      (by decide) (by decide) (by decide)
  have hG : C2afterGate = { C2state with waiting_for_signal := true
                                         waiting_signal_id := 7
                                         signal_wait_start := 3 } := by
    unfold C2afterGate
    rw [hgate]
  have hsync := syncSignal_match_eq
    { C2state with waiting_for_signal := true
                   waiting_signal_id := 7
                   signal_wait_start := 3 } 7 4
    (by decide) (by decide) (by decide) (by decide)
  rw [if_pos (by decide)] at hsync
  have hS : C2afterSync = { C2state with
      waiting_for_signal := true
      waiting_signal_id := 7
      signal_wait_start := 3
      replay_time_offset := C2state.replay_time_offset + (4 - 3)
      replay_signal_cursor := C2state.replay_signal_cursor + 1 } := by
    unfold C2afterSync
    rw [hG, hsync]
  have hSw : C2afterSync.waiting_for_signal = true := by rw [hS]
  refine ⟨by rw [hgate], by rw [hG], by rw [hG], by rw [hG]; exact rfl,
          by rw [injectInput_gated _ _ (by rw [hG])],
          by rw [hS]; exact rfl,
          hSw,
          by rw [injectInput_gated _ _ hSw],
          by rw [injectInput_gated _ _ hSw]; rw [hS]; exact rfl,
          by rw [injectInput_gated _ _ hSw]; exact hSw⟩

/-! ### C4 — clock reconciliation on sync -/

/-- C4 counterexample: in the late case the claim's premises hold (the engine
is gated on the next expected signal, recorded timestamp T = 1, and the offset
does increase by `now − wait_start`), yet `replay_time` immediately after the
call is 2, the replay time at which the gate was set, not T = 1. -/
theorem C4_late_case_replay_time_not_T :
    (GMT_SyncSignal_ C4state 7 5).replay_time_offset =
      C4state.replay_time_offset + (5 - C4state.signal_wait_start) ∧
    replayTime (GMT_SyncSignal_ C4state 7 5) 5 = 2 ∧
    ¬ replayTime (GMT_SyncSignal_ C4state 7 5) 5 = 1 := by
  have h := syncSignal_match_eq C4state 7 5 (by decide) (by decide)
    (by decide) (by decide)
  rw [if_pos (by decide)] at h
  refine ⟨by rw [h], ?_, ?_⟩
  · rw [h]
    norm_num [replayTime, C4state, GMT_State.zeroed]
  · rw [h]
    norm_num [replayTime, C4state, GMT_State.zeroed]

/-- C4 amended: when the application emits the id matching the next expected
recorded signal (timestamp `st`), the cursor advances and the offset is
reconciled exactly as the code computes it — late case (already gated on this
id): `offset += now − wait_start`, after which `replay_time` equals the replay
time at the moment the gate was set (which is ≥ st, with equality only if the
gate was set exactly at st); early case: `offset += replay_time_now − st`,
after which `replay_time` equals exactly `st`. -/
theorem C4_amended_offset_reconciliation (s : GMT_State) (id : Int) (now : ℚ)
    (hinit : s.initialized = true) (hmode : s.mode = .REPLAY)
    (hc : s.replay_signal_cursor < s.replay_signals.length)
    (hid : (s.replay_signals.getD s.replay_signal_cursor default).signal_id
             = id) :
    (GMT_SyncSignal_ s id now).replay_signal_cursor
      = s.replay_signal_cursor + 1 ∧
    (s.waiting_for_signal = true ∧ s.waiting_signal_id = id →
      (GMT_SyncSignal_ s id now).replay_time_offset
        = s.replay_time_offset + (now - s.signal_wait_start) ∧
      replayTime (GMT_SyncSignal_ s id now) now
        = replayTime s s.signal_wait_start) ∧
    (¬ (s.waiting_for_signal = true ∧ s.waiting_signal_id = id) →
      (GMT_SyncSignal_ s id now).replay_time_offset
        = s.replay_time_offset + (replayTime s now -
            (s.replay_signals.getD s.replay_signal_cursor default).timestamp) ∧
      replayTime (GMT_SyncSignal_ s id now) now
        = (s.replay_signals.getD s.replay_signal_cursor default).timestamp) := by
  have h := syncSignal_match_eq s id now hinit hmode hc hid
  by_cases hw : s.waiting_for_signal = true ∧ s.waiting_signal_id = id
  · rw [if_pos hw] at h
    refine ⟨by rw [h], fun _ => ⟨by rw [h], ?_⟩, fun hnw => absurd hw hnw⟩
    rw [h]
    simp [replayTime]
    ring
  · rw [if_neg hw] at h
    refine ⟨by rw [h], fun hcontra => absurd hcontra hw,
            fun _ => ⟨by rw [h], ?_⟩⟩
    rw [h]
    simp [replayTime]
    ring

/-- C4 witness: the amended theorem applied to the concrete gated session
(late case) and to the same session with the gate not yet set (early case). -/
theorem C4_amended_offset_reconciliation_w :
    ((GMT_SyncSignal_ C4state 7 5).replay_signal_cursor = 1 ∧
     (GMT_SyncSignal_ C4state 7 5).replay_time_offset = 3 ∧
     replayTime (GMT_SyncSignal_ C4state 7 5) 5 = 2) ∧
    (replayTime
       (GMT_SyncSignal_ { C4state with waiting_for_signal := false } 7 5) 5
       = 1) := by
  have hlate := C4_amended_offset_reconciliation C4state 7 5 (by decide)
    (by decide) (by decide) (by decide)
  have hearly := C4_amended_offset_reconciliation
    { C4state with waiting_for_signal := false } 7 5 (by decide) (by decide)
    (by decide) (by decide)
  refine ⟨⟨hlate.1, ?_, ?_⟩, ?_⟩
  · rw [(hlate.2.1 (by decide)).1]
    norm_num [C4state, GMT_State.zeroed]
  · rw [(hlate.2.1 (by decide)).2]
    norm_num [replayTime, C4state, GMT_State.zeroed]
  · rw [(hearly.2.2 (by decide)).2]
    norm_num [C4state, GMT_State.zeroed]

/-! ### C6 — mismatched or surplus sync signal is ignored -/

/-- C6: during replay, a sync-signal call whose id does not match the next
expected recorded signal, or which arrives after all recorded signals are
consumed, leaves the session state completely unchanged: the cursor does not
advance, the clock offset is untouched, and the engine remains gated on its
original target. -/
theorem C6_mismatched_signal_ignored (s : GMT_State) (id : Int) (now : ℚ)
    (hmode : s.mode = .REPLAY)
    (h : ¬ s.replay_signal_cursor < s.replay_signals.length ∨
         ¬ (s.replay_signals.getD s.replay_signal_cursor default).signal_id
             = id) :
    GMT_SyncSignal_ s id now = s := by
  unfold GMT_SyncSignal_
  by_cases hi : s.initialized
  · simp only [hi]
    rw [if_neg (by simp)]
    rw [if_neg (by simp [hmode])]
    rcases h with h | h
    · simp [hmode, h]
    · by_cases hc : s.replay_signal_cursor < s.replay_signals.length
      · have h2 : ¬ (s.replay_signals[s.replay_signal_cursor]).signal_id
            = id := by
          rw [List.getD_eq_getElem?_getD, List.getElem?_eq_getElem hc] at h
          simpa using h
        simp [hmode, hc, h2]
      · simp [hmode, hc]
  · simp [hi]

/-- C6 witness: a mismatched id (8 instead of 7) and a surplus id (cursor past
the end) both leave the concrete gated session untouched. -/
theorem C6_mismatched_signal_ignored_w :
    GMT_SyncSignal_ C6state 8 5 = C6state ∧
    GMT_SyncSignal_ { C6state with replay_signal_cursor := 1 } 7 5
      = { C6state with replay_signal_cursor := 1 } := by
  constructor
  · exact C6_mismatched_signal_ignored C6state 8 5 (by decide) (Or.inr (by decide))
  · exact C6_mismatched_signal_ignored _ 7 5 (by decide) (Or.inl (by decide))

/-! ### C9 — load failure cleanup -/

/-- C9: whenever `GMT_Record_LoadReplay` fails, the raw file buffer is freed,
no decoded array is left allocated in the session, and all decoded counts and
contents are empty — the session never holds half-loaded arrays.  (Because the
`uint16_t` magic field can never equal the 32-bit magic constant — see C1 —
every failure happens during header validation, before the counting pass and
before any decoded-array allocation, so the enumerated truncation/unknown-tag/
allocation failures never arise and the single `GMT_Free(data)` in `cleanup`
is the complete cleanup obligation.) -/
theorem C9_failed_load_leaves_no_partial_state (sz : LoadSizes)
    (allocOk : Nat → Bool) (data : List Nat)
    (h : (GMT_Record_LoadReplay sz allocOk data).ok = false) :
    (GMT_Record_LoadReplay sz allocOk data).dataFreed = true ∧
    (GMT_Record_LoadReplay sz allocOk data).inputsAllocated = false ∧
    (GMT_Record_LoadReplay sz allocOk data).signalsAllocated = false ∧
    (GMT_Record_LoadReplay sz allocOk data).pinsAllocated = false ∧
    (GMT_Record_LoadReplay sz allocOk data).tracksAllocated = false ∧
    (GMT_Record_LoadReplay sz allocOk data).replay_inputs = [] ∧
    (GMT_Record_LoadReplay sz allocOk data).replay_signals = [] ∧
    (GMT_Record_LoadReplay sz allocOk data).replay_pins = [] ∧
    (GMT_Record_LoadReplay sz allocOk data).replay_tracks = [] ∧
    (GMT_Record_LoadReplay sz allocOk data).input_count = 0 ∧
    (GMT_Record_LoadReplay sz allocOk data).signal_count = 0 ∧
    (GMT_Record_LoadReplay sz allocOk data).pin_count = 0 ∧
    (GMT_Record_LoadReplay sz allocOk data).track_count = 0 ∧
    ((GMT_Record_LoadReplay sz allocOk data).err).isSome = true := by
  clear h
  have h1 : data.getD 0 0 % 256 < 256 := Nat.mod_lt _ (by norm_num)
  have h2 : data.getD 1 0 % 256 < 256 := Nat.mod_lt _ (by norm_num)
  have hm : ¬ readU16le data 0 = GMT_RECORD_MAGIC := by
    unfold readU16le GMT_RECORD_MAGIC
    omega
  unfold GMT_Record_LoadReplay
  by_cases hsz : data.length < 4
  · simp [hsz, loadFail]
  · simp [hsz, hm, loadFail]

/-- C9 witness: the theorem applied to the empty file (which fails with
"too small to contain a valid header"). -/
theorem C9_failed_load_leaves_no_partial_state_w :
    (GMT_Record_LoadReplay ⟨1, 1⟩ (fun _ => true) []).ok = false ∧
    (GMT_Record_LoadReplay ⟨1, 1⟩ (fun _ => true) []).dataFreed = true ∧
    (GMT_Record_LoadReplay ⟨1, 1⟩ (fun _ => true) []).inputsAllocated = false := by
  have h := C9_failed_load_leaves_no_partial_state ⟨1, 1⟩ (fun _ => true) []
    (by decide)
  exact ⟨by decide, h.1, h.2.1⟩

/-! ### C3 — what one injector invocation hands to the injection capability -/

/-- C3 counterexample: with two due input records (distinct snapshots, no
signal pending) one invocation of `GMT_Record_InjectInput` hands BOTH
`(new, prev)` pairs to the external injection capability, in file order — two
calls, not one — so the intermediate due input state IS injected, refuting
"only the last input record collected before stopping is handed to the
external injection capability". -/
theorem C3_intermediate_inputs_injected_cex :
    (GMT_Record_InjectInput C3state 2).2 = [([1], [0]), ([2], [1])] ∧
    ¬ (GMT_Record_InjectInput C3state 2).2.length = 1 := by
  have hrt : replayTime C3state 2 = 2 := by
    norm_num [replayTime, C3state, GMT_State.zeroed]
  have h := collectGo_all_due 2 2 [⟨0, [1]⟩, ⟨1, [2]⟩] GMT__MAX_INJECT_BATCH
    C3state [] [] (by decide) (by decide)
    (by norm_num) (fun d hd => by simp at hd) (by decide) (Or.inl rfl)
  have h2 : (GMT_Record_InjectInput C3state 2).2
      = [([1], [0]), ([2], [1])] := by
    unfold GMT_Record_InjectInput GMT__CollectPendingInjections
    rw [if_neg (by decide), hrt, h.1]
    decide
  exact ⟨h2, by rw [h2]; decide⟩

/-- C3 amended: in one injector invocation, EVERY due input record collected
(the due prefix of the pending inputs, up to the batch cap of 8, with no
signal pending) is handed to the external injection capability, in file order,
each paired with the snapshot injected just before it; the input cursor
advances past all of them.  Intermediate due states are injected too, not
skipped. -/
theorem C3_amended_every_due_input_injected (s : GMT_State) (now : ℚ)
    (xs ys : List GMT_DecodedInput)
    (hw : s.waiting_for_signal = false)
    (hsig : s.replay_signals.length ≤ s.replay_signal_cursor)
    (hdrop : s.replay_inputs.drop s.replay_input_cursor = xs ++ ys)
    (hxs : ∀ d ∈ xs, d.timestamp ≤ replayTime s now)
    (hys : ∀ d, ys.head? = some d → replayTime s now < d.timestamp)
    (hlen : xs.length ≤ GMT__MAX_INJECT_BATCH) :
    (GMT_Record_InjectInput s now).2 =
      injectPairs s.replay_prev_input (xs.map GMT_DecodedInput.input) ∧
    (GMT_Record_InjectInput s now).1.replay_input_cursor =
      s.replay_input_cursor + xs.length := by
  have h := collectGo_all_due now (replayTime s now) xs GMT__MAX_INJECT_BATCH s
    [] ys hdrop hsig hxs hys hlen (Or.inl rfl)
  unfold GMT_Record_InjectInput GMT__CollectPendingInjections
  rw [if_neg (by simp [hw])]
  exact ⟨by rw [h.1]; simp, h.2⟩

/-- C3 witness: the amended theorem applied to the concrete two-due-inputs
session. -/
theorem C3_amended_every_due_input_injected_w :
    (GMT_Record_InjectInput C3state 2).2 =
      injectPairs C3state.replay_prev_input [[1], [2]] ∧
    (GMT_Record_InjectInput C3state 2).1.replay_input_cursor = 0 + 2 := by
  have h := C3_amended_every_due_input_injected C3state 2
    [⟨0, [1]⟩, ⟨1, [2]⟩] [] (by decide) (by decide) (by decide)
    (by norm_num [replayTime, C3state, GMT_State.zeroed])
    (fun d hd => by simp at hd) (by decide)
  exact ⟨h.1, h.2⟩

/-! ### C5 — delta suppression of identical snapshots -/

/-- C5 counterexample: a fresh record session whose captured snapshots are
byte-identical to the zeroed initial "last written" snapshot writes ZERO input
records for K = 2 identical ticks, not exactly 1 as the claim states (the
delta compression treats the memset-zero initial state as already written). -/
theorem C5_zero_snapshot_writes_no_record_cex :
    inputRecordCount
      (((recordTicks ((GMT_Init_ .RECORD 0 1 0 true none).1)
          [(1, [0]), (2, [0])]).record_file).getD []) = 0 ∧
    ¬ inputRecordCount
      (((recordTicks ((GMT_Init_ .RECORD 0 1 0 true none).1)
          [(1, [0]), (2, [0])]).record_file).getD []) = 1 := by
  decide

/-- C5 amended: recording K ≥ 1 consecutive ticks whose captured snapshots
are all byte-identical to `snap` produces exactly 1 INPUT record when `snap`
differs from the zeroed initial last-written snapshot, and 0 records when it
equals it. -/
theorem C5_amended_delta_suppression (n : Nat) (trig : Int) (t0 : ℚ)
    (snap : GMT_InputState) (ticks : List (ℚ × GMT_InputState))
    (hne : ticks ≠ []) (hall : ∀ p ∈ ticks, p.2 = snap) :
    inputRecordCount
      (((recordTicks (GMT_Init_ .RECORD trig n t0 true none).1 ticks
        ).record_file).getD [])
      = if snap = GMT_InputState_Clear n then 0 else 1 := by
  obtain ⟨⟨now, cap⟩, rest, rfl⟩ : ∃ t rest, ticks = t :: rest := by
    cases ticks with
    | nil => exact absurd rfl hne
    | cons t rest => exact ⟨t, rest, rfl⟩
  have hprev : (GMT_Init_ .RECORD trig n t0 true none).1.record_prev_input
      = GMT_InputState_Clear n := rfl
  have hcap : cap = snap := hall (now, cap) (by simp)
  by_cases hz : snap = GMT_InputState_Clear n
  · rw [recordTicks_const_noop snap _ _ (by rw [hprev, hz]) hall]
    rw [if_pos hz]
    rfl
  · rw [if_neg hz]
    simp only [recordTicks]
    rw [writeInput_append _ _ _ [] rfl (by rw [hprev, hcap]; exact hz)]
    rw [recordTicks_const_noop snap _ _ (by simpa using hcap)
      (fun p hmem => hall p (by simp [hmem]))]
    rfl

/-- C5 witness: three identical non-zero snapshots cost exactly one INPUT
record. -/
theorem C5_amended_delta_suppression_w :
    inputRecordCount
      (((recordTicks (GMT_Init_ .RECORD 0 1 0 true none).1
          [(1, [7]), (2, [7]), (3, [7])]).record_file).getD []) = 1 := by
  have h := C5_amended_delta_suppression 1 0 0 [7]
    [(1, [7]), (2, [7]), (3, [7])] (by simp) (by simp)
  rw [h]
  decide

/-! ### C7 — assertion failure threshold -/

/-- C7: with `fail_assertion_trigger_count = 3`, the 1st and 2nd assertion
failures do not invoke fail, the 3rd does (exactly once, marking the test
failed); and any configured threshold ≤ 1 is treated as 1, so the very first
failed assertion invokes fail. -/
theorem C7_threshold_semantics :
    ((GMT_Assert_ (GMT_Init_ .RECORD 3 1 0 true none).1 false 11).2 = false ∧
     (GMT_Assert_ (GMT_Assert_ (GMT_Init_ .RECORD 3 1 0 true none).1
        false 11).1 false 22).2 = false ∧
     (GMT_Assert_ (GMT_Assert_ (GMT_Assert_ (GMT_Init_ .RECORD 3 1 0 true
        none).1 false 11).1 false 22).1 false 33).2 = true ∧
     (GMT_Assert_ (GMT_Assert_ (GMT_Assert_ (GMT_Init_ .RECORD 3 1 0 true
        none).1 false 11).1 false 22).1 false 33).1.test_failed = true) ∧
    ∀ cfg : Int, cfg ≤ 1 →
      (GMT_Assert_ (GMT_Init_ .RECORD cfg 1 0 true none).1 false 5).2
        = true := by
  refine ⟨by decide, ?_⟩
  intro cfg hcfg
  simp [GMT_Assert_, GMT_Init_, GMT_State.zeroed, GMT_Record_OpenForWrite,
    GMT_TrackAssertionSite_, GMT_Fail_, GMT_MAX_FAILED_ASSERTIONS,
    GMT_MAX_UNIQUE_ASSERTIONS, hcfg]

/-- C7 witness: with a configured threshold of 0 (≤ 1), the first failed
assertion invokes fail. -/
theorem C7_threshold_semantics_w :
    (GMT_Assert_ (GMT_Init_ .RECORD 0 1 0 true none).1 false 5).2 = true :=
  C7_threshold_semantics.2 0 (by decide)

/-! ### C8 — Pin record/replay semantics and call-to-entry pairing -/

/-- C8 counterexample: the decoded pins hold two entries for key 40, both with
stored per-tick index 0 (one pin call in each of two recorded ticks).  During
one replay tick the 1st call receives the 1st entry, but the 2nd call — whose
claim-predicted partner is the 2nd recorded entry for key 40 in file order,
size-compatible and holding [2] — looks up `(40, 1)`, finds nothing, and
leaves the live value [9] unchanged instead of overwriting it with [2]. -/
theorem C8_second_call_same_index_miss_cex :
    (GMT_Pin_ C8state 40 [9]).2 = [1] ∧
    (GMT_Pin_ (GMT_Pin_ C8state 40 [9]).1 40 [9]).2 = [9] ∧
    (C8state.replay_pins.filter fun r => decide (r.key = 40)).getD 1 default
      = ⟨40, 0, 1, [2]⟩ ∧
    ¬ (GMT_Pin_ (GMT_Pin_ C8state 40 [9]).1 40 [9]).2 = [2] := by
  decide

/-- C8 amended: (record mode) Pin persists `(key, call-ordinal, bytes)` to the
trace and leaves the live value untouched; (replay mode) the Nth call with key
K is paired with the FIRST recorded entry for K whose stored index equals the
call ordinal — on a miss or size mismatch the live value is unchanged,
otherwise it is overwritten with the recorded bytes; and that first-match
lookup coincides with "the Nth recorded entry for K in file order" exactly
when K's entries carry consecutive indices 0, 1, 2, … (as recording them in a
single tick produces). -/
theorem C8_amended_pin_semantics :
    (∀ (s : GMT_State) (key : Nat) (data : List Nat)
       (recs : List GMT_TraceRecord),
       s.initialized = true → s.mode = .RECORD → s.record_file = some recs →
       0 < data.length → data.length ≤ GMT_MAX_DATA_RECORD_PAYLOAD →
       GMT_Pin_ s key data =
         ({ s with pin_counter := (GMT_KeyCounter_Next s.pin_counter key).1
                   record_file := some (recs ++
                     [GMT_TraceRecord.data .pin key
                       (GMT_KeyCounter_Next s.pin_counter key).2 data])
                   record_pin_count := s.record_pin_count + 1 }, data)) ∧
    (∀ (s : GMT_State) (key : Nat) (data : List Nat),
       s.initialized = true → s.mode = .REPLAY →
       0 < data.length → data.length ≤ GMT_MAX_DATA_RECORD_PAYLOAD →
       (GMT_Pin_ s key data).2 =
         (match GMT_Record_FindDecoded s.replay_pins key
             (GMT_KeyCounter_Next s.pin_counter key).2 with
          | none => data
          | some r => if r.size = data.length then r.data else data)) ∧
    (∀ (arr : List GMT_DecodedDataRecord) (key j : Nat),
       (arr.filter fun r => decide (r.key = key)).map (fun r => r.index)
         = List.range (arr.filter fun r => decide (r.key = key)).length →
       GMT_Record_FindDecoded arr key j
         = (arr.filter fun r => decide (r.key = key)).get? j) := by
  refine ⟨?_, ?_, ?_⟩
  · intro s key data recs hinit hmode hf hpos hcap
    unfold GMT_Pin_
    rw [if_neg (by simp [hinit, hmode])]
    rw [if_neg (by omega)]
    rw [if_neg (by omega)]
    simp only [hmode]
    unfold GMT_Record_WriteDataRecord
    simp only [hf]
    rw [if_neg (by omega)]
  · intro s key data hinit hmode hpos hcap
    unfold GMT_Pin_
    rw [if_neg (by simp [hinit, hmode])]
    rw [if_neg (by omega)]
    rw [if_neg (by omega)]
    simp only [hmode]
    cases hfind : GMT_Record_FindDecoded s.replay_pins key
        (GMT_KeyCounter_Next s.pin_counter key).2 with
    | none => simp [hfind]
    | some r =>
      simp only [hfind]
      by_cases hsz : r.size = data.length
      · rw [if_neg (by simp [hsz]), if_pos hsz]
      · rw [if_pos (by simp [hsz]), if_neg hsz]
  · intro arr key j hconsec
    rw [findDecoded_filter_key]
    have h := find?_index_of_consecutive
      (arr.filter fun r => decide (r.key = key)) 0 j (by simpa using hconsec)
    simpa using h

/-- C8 witness: the record branch persists (40, 0, [9]) and returns the value
unchanged; the replay branch's first call on the concrete session receives the
recorded [1]; and on entries for key 40 with consecutive indices the (40, 1)
lookup is exactly the 2nd entry for the key in file order. -/
theorem C8_amended_pin_semantics_w :
    GMT_Pin_ C8recState 40 [9] =
      ({ C8recState with
          pin_counter := (GMT_KeyCounter_Next C8recState.pin_counter 40).1
          record_file := some ([] ++
            [GMT_TraceRecord.data .pin 40
              (GMT_KeyCounter_Next C8recState.pin_counter 40).2 [9]])
          record_pin_count := C8recState.record_pin_count + 1 }, [9]) ∧
    (GMT_Pin_ C8state 40 [9]).2 = [1] ∧
    GMT_Record_FindDecoded [⟨40, 0, 1, [1]⟩, ⟨40, 1, 1, [5]⟩] 40 1
      = ([⟨40, 0, 1, [1]⟩, ⟨40, 1, 1, [5]⟩].filter
          fun r => decide (r.key = 40)).get? 1 := by
  have h := C8_amended_pin_semantics
  refine ⟨h.1 C8recState 40 [9] [] (by decide) (by decide) (by decide)
            (by decide) (by decide), ?_, ?_⟩
  · rw [h.2.1 C8state 40 [9] (by decide) (by decide) (by decide) (by decide)]
    decide
  · exact h.2.2 [⟨40, 0, 1, [1]⟩, ⟨40, 1, 1, [5]⟩] 40 1 (by decide)

/-! ### C10 — entry points are no-ops before init or when disabled -/

/-- C10: each public entry point (update, assert, sync_signal, pin, track,
reset, fail), called before initialization or while the mode is DISABLED,
returns with the session state unchanged and performs no observable action:
no injection call is made, no fail action fires, and the live pin value is
untouched. -/
theorem C10_noop_before_init_or_disabled (s : GMT_State) (now : ℚ)
    (captured : GMT_InputState) (cond : Bool) (locHash : Int) (id : Int)
    (key : Nat) (data : List Nat)
    (reload : Option (List GMT_DecodedInput × List GMT_DecodedSignal ×
                      List GMT_DecodedDataRecord × List GMT_DecodedDataRecord))
    (h : s.initialized = false ∨ s.mode = .DISABLED) :
    GMT_Update_ s now captured = (s, []) ∧
    GMT_Assert_ s cond locHash = (s, false) ∧
    GMT_SyncSignal_ s id now = s ∧
    GMT_Pin_ s key data = (s, data) ∧
    GMT_Track_ s key data locHash = s ∧
    GMT_Reset_ s now reload = s ∧
    GMT_Fail_ s = (s, false) := by
  rcases h with h | h <;>
    exact ⟨by simp [GMT_Update_, h], by simp [GMT_Assert_, h],
           by simp [GMT_SyncSignal_, h], by simp [GMT_Pin_, h],
           by simp [GMT_Track_, h], by simp [GMT_Reset_, h],
           by simp [GMT_Fail_, h]⟩

/-- C10 witness: the theorem applied to the zeroed (uninitialized) state. -/
theorem C10_noop_before_init_or_disabled_w :
    GMT_Update_ (GMT_State.zeroed 1) 0 [] = (GMT_State.zeroed 1, []) ∧
    GMT_Assert_ (GMT_State.zeroed 1) false 0 = (GMT_State.zeroed 1, false) ∧
    GMT_SyncSignal_ (GMT_State.zeroed 1) 0 0 = GMT_State.zeroed 1 ∧
    GMT_Pin_ (GMT_State.zeroed 1) 1 [1] = (GMT_State.zeroed 1, [1]) ∧
    GMT_Track_ (GMT_State.zeroed 1) 1 [1] 0 = GMT_State.zeroed 1 ∧
    GMT_Reset_ (GMT_State.zeroed 1) 0 none = GMT_State.zeroed 1 ∧
    GMT_Fail_ (GMT_State.zeroed 1) = (GMT_State.zeroed 1, false) :=
  C10_noop_before_init_or_disabled (GMT_State.zeroed 1) 0 [] false 0 0 1 [1]
    none (Or.inl rfl)

end GameTest
